import Mathlib

/-!
Shallow embedding of the connection/correlation core of `swarm-control`:
the `GameConnection` class (socket lifecycle, versioned handshake, redeem
correlation and the resend queue) together with the data shapes it consumes
from `common/types.ts`.

Modelling conventions:
* JavaScript `Map<string, V>` objects become association lists
  `List (String × V)` with `mapGet` / `mapSet` / `mapDelete` / `mapHas`
  mirroring `get` / `set` / `delete` / `has`.
* The transport callback of `socket.send` is an external input: every
  operation that may write to the socket takes a `terr : Option String`
  argument, `none` meaning the write succeeded and `some e` meaning the
  transport reported error `e`.
* `uuid()` and `Date.now()` of `makeMessage` are nondeterministic inputs,
  passed in as explicit `freshGuid` / `now` arguments.
* Promises are modelled by an explicit first-writer-wins `PromiseState`;
  each `redeem` call is identified by a promise id `pid : Nat`.
* The event-driven callbacks run single threaded; the `close` event of a
  socket that `setSocket` itself closes is modelled as running inline.
-/

/-- Wire enum from `common/types.ts` (`const enum AnnounceType`). -/
inductive AnnounceType
  | DefaultAnnounce
  | DefaultSilent
  | AlwaysAnnounce
  | AlwaysSilent
deriving DecidableEq

/-- Numeric value of the TS `const enum` member (members are auto-numbered
from 0). -/
def AnnounceType.toNat : AnnounceType → Nat
  | .DefaultAnnounce => 0
  | .DefaultSilent => 1
  | .AlwaysAnnounce => 2
  | .AlwaysSilent => 3

/-- Literal parameter kinds from `common/types.ts`. -/
inductive LiteralTypes
  | String
  | Integer
  | Float
  | Boolean
deriving DecidableEq

/-- Redeem parameter from `common/types.ts` (the union
`TextParam | NumericParam | BooleanParam | EnumParam`, flattened; only the
fields shared by `ParameterBase` plus each variant's extras). JS `number`
fields are modelled as `Int`. -/
inductive Parameter
  | textParam (name : String) (title description : Option String)
      (required : Option Bool) (defaultValue : Option String)
      (minLength maxLength : Option Int)
  | numericParam (name : String) (title description : Option String)
      (required : Option Bool) (isFloat : Bool) (defaultValue : Option Int)
      (min max : Option Int)
  | booleanParam (name : String) (title description : Option String)
      (required : Option Bool) (defaultValue : Option Bool)
  | enumParam (name : String) (title description : Option String)
      (required : Option Bool) (enumName : String) (defaultValue : Option String)
deriving DecidableEq

/-- Catalog item `Redeem` from `common/types.ts`. -/
structure Redeem where
  id : String
  title : String
  description : String
  args : List Parameter
  announce : Option AnnounceType
  moderated : Option Bool
  image : String
  price : Int
  sku : String
  disabled : Option Bool
  hidden : Option Bool
deriving DecidableEq

/-- `Cart` from `common/types.ts`; the `args` object is a string-keyed
record. -/
structure Cart where
  version : Int
  id : String
  sku : String
  args : List (String × String)
  announce : Bool
deriving DecidableEq

/-- Modelled from the spec: `TwitchUser` lives in the `messages` module,
which is not among the sources; it is an opaque external identity record
attached to a redeem request. -/
structure TwitchUser where
  id : String
  login : String
  displayName : String
deriving DecidableEq

/-- Modelled from the spec: the `MessageType` discriminant enum of the
`messages` module (not among the sources); the variants are the ones the
spec's message model lists and the core dispatches on. -/
inductive MessageType
  | Hello
  | HelloBack
  | Ping
  | Pong
  | Redeem
  | Result
  | IngameStateChanged
deriving DecidableEq

/-- Modelled from the spec: `ResultMessage` of `messages.game` (not among
the sources): `Result{guid, success, payload}` extending the base message. -/
structure ResultMessage where
  guid : String
  timestamp : Nat
  success : Bool
  payload : String
deriving DecidableEq

/-- Inbound message union `GameMessage` (`messages.game`, modelled from the
spec's message model): `Hello{version}`, `Ping{}`, `Result{...}`,
`IngameStateChanged{ingame}`; `other` stands for any further numeric
discriminant, hitting the `default` branch of `processMessage`. -/
inductive GameMessage
  | hello (guid : String) (timestamp : Nat) (version : String)
  | ping (guid : String) (timestamp : Nat)
  | result (r : ResultMessage)
  | ingameStateChanged (guid : String) (timestamp : Nat) (ingame : Bool)
  | other (messageTypeCode : Nat) (guid : String) (timestamp : Nat)
deriving DecidableEq

/-- Modelled from the spec: `CommandInvocationSource` of `messages.server`
(not among the sources); the core only ever uses `Swarm`. -/
inductive CommandInvocationSource
  | Swarm
deriving DecidableEq

/-- Value stored in the outbound `announce` field: the source writes
`redeem.announce ?? true`, so the field holds either a numeric
`AnnounceType` copied from the catalog item or the boolean `true`. -/
inductive AnnounceVal
  | ofType (a : AnnounceType)
  | ofBool (b : Bool)
deriving DecidableEq

/-- Outbound `RedeemMessage` of `messages.server` as constructed by
`GameConnection.redeem` (base fields `guid`/`timestamp` plus the
redeem-specific payload). -/
structure RedeemMessage where
  guid : String
  timestamp : Nat
  source : CommandInvocationSource
  command : String
  title : String
  announce : AnnounceVal
  args : List (String × String)
  user : TwitchUser
deriving DecidableEq

/-- Outbound message union `ServerMessage` (`messages.server`, modelled
from the spec's message model): `HelloBack{allowed}`, `Pong{}` and the
redeem request. -/
inductive ServerMessage
  | helloBack (guid : String) (timestamp : Nat) (allowed : Bool)
  | pong (guid : String) (timestamp : Nat)
  | redeemMsg (m : RedeemMessage)
deriving DecidableEq

/-- The `messageType` discriminant of an outbound message. -/
def ServerMessage.messageType : ServerMessage → MessageType
  | .helloBack _ _ _ => .HelloBack
  | .pong _ _ => .Pong
  | .redeemMsg _ => .Redeem

/-- Declared protocol version (`const VERSION = "0.1.0"`). -/
def VERSION : String := "0.1.0"

/-- A bound server-side websocket; only its `readyState` matters to the
core. `ws` readyStates: CONNECTING 0, OPEN 1, CLOSING 2, CLOSED 3. -/
structure ServerWS where
  readyState : Nat
deriving DecidableEq

/-- `ServerWS.OPEN` readyState constant. -/
def ServerWS.OPEN : Nat := 1

/-- `Map.get`: first value bound to the key, if any. -/
def mapGet {κ α : Type} [DecidableEq κ] : List (κ × α) → κ → Option α
  | [], _ => none
  | (k', v) :: rest, k => if k' = k then some v else mapGet rest k

/-- `Map.set`: update the existing binding in place, else append. -/
def mapSet {κ α : Type} [DecidableEq κ] : List (κ × α) → κ → α → List (κ × α)
  | [], k, v => [(k, v)]
  | (k', v') :: rest, k, v =>
      if k' = k then (k, v) :: rest else (k', v') :: mapSet rest k v

/-- `Map.delete`: remove the binding for the key. -/
def mapDelete {κ α : Type} [DecidableEq κ] : List (κ × α) → κ → List (κ × α)
  | [], _ => []
  | (k', v) :: rest, k =>
      if k' = k then mapDelete rest k else (k', v) :: mapDelete rest k

/-- `Map.has`. -/
def mapHas {κ α : Type} [DecidableEq κ] (m : List (κ × α)) (k : κ) : Bool :=
  (mapGet m k).isSome

/-- Mutable state of the `GameConnection` class. The result handler bound
to a guid is the `resolve` callback of the `redeem` call's promise,
represented by that promise's id. `resendIntervalHandle` records whether a
live resend interval handle exists. -/
structure GameConnection where
  handshake : Bool
  socket : Option ServerWS
  unsentQueue : List ServerMessage
  outstandingRedeems : List (String × RedeemMessage)
  resultHandlers : List (String × Nat)
  resendIntervalHandle : Bool
deriving DecidableEq

/-- `static resultWaitTimeout: number = 10000`. -/
def GameConnection.resultWaitTimeout : Nat := 10000

/-- `private resendInterval = 500`. -/
def GameConnection.resendInterval : Nat := 500

/-- `isConnected()`: the socket exists and its readyState is OPEN. -/
def GameConnection.isConnected (c : GameConnection) : Bool :=
  match c.socket with
  | some s => s.readyState == ServerWS.OPEN
  | none => false

/-- Rejection string of the no-socket branch of `sendMessage`. -/
def notConnectedError : String :=
  "Tried to send message without a connected socket"

/-- Rejection string of the handshake gate of `sendMessage`. -/
def handshakeIncompleteError : String :=
  "Tried to send message before handshake was complete"

/-- `msgSendError`: push the message onto the unsent (resend) queue and log.
Only the queue changes. -/
def GameConnection.msgSendError (c : GameConnection) (msg : ServerMessage) :
    GameConnection :=
  { c with unsentQueue := c.unsentQueue ++ [msg] }

/-- `sendMessage`: reject without a connected socket; reject non-`Pong`
messages before the handshake; otherwise write to the socket, whose
callback either reports a transport error (`terr = some e`, rejecting) or
success (`terr = none`, resolving). Every rejection path first runs
`msgSendError`. Returns the promise outcome and the updated state. -/
def GameConnection.sendMessage (c : GameConnection) (msg : ServerMessage)
    (terr : Option String) : Except String Unit × GameConnection :=
  if ¬ c.isConnected then
    (.error notConnectedError, c.msgSendError msg)
  else if ¬ c.handshake ∧ msg.messageType ≠ MessageType.Pong then
    (.error handshakeIncompleteError, c.msgSendError msg)
  else
    match terr with
    | some e => (.error e, c.msgSendError msg)
    | none => (.ok (), c)

/-- Observable side effects of the event handlers: messages handed to
`sendMessage` by `processMessage`, result-handler (promise `resolve`)
invocations, calls to the external `setIngame` sink, log lines with
behavioural content, and the closing of a previously owned socket. -/
inductive ConnEvent
  | sendCalled (m : ServerMessage)
  | handlerInvoked (pid : Nat) (r : ResultMessage)
  | noHandlerWarn (guid : String)
  | untrackedError (guid : String)
  | ingameSet (b : Bool)
  | unknownLogged (guid : String) (messageTypeCode : Nat)
  | socketClosed
deriving DecidableEq

/-- Handler registered by `ws.on("close", ...)` plus the transport fact
that the socket's readyState becomes CLOSED: log, `setIngame(false)`, and
clear the resend interval if a handle exists. The `handshake` flag is not
touched here. -/
def GameConnection.onSocketClose (c : GameConnection) :
    GameConnection × List ConnEvent :=
  let c1 := { c with
    socket := c.socket.map (fun (s : ServerWS) => { s with readyState := 3 }) }
  let c2 := if c1.resendIntervalHandle
    then { c1 with resendIntervalHandle := false } else c1
  (c2, [ConnEvent.ingameSet false])

/-- `setSocket`: close the previously bound socket when it is connected
(its `close` event, modelled inline, stops the timer and notifies the
sink), store the new socket, and — only when it is non-null — reset the
handshake flag and start the resend interval. -/
def GameConnection.setSocket (c : GameConnection) (ws : Option ServerWS) :
    GameConnection × List ConnEvent :=
  let (c1, evs) :=
    if c.isConnected then
      let (c', evs') := c.onSocketClose
      (c', ConnEvent.socketClosed :: evs')
    else (c, [])
  let c2 := { c1 with socket := ws }
  match ws with
  | none => (c2, evs)
  | some _ =>
      ({ c2 with handshake := false, resendIntervalHandle := true }, evs)

/-- `processMessage`: dispatch one parsed inbound message. `freshGuid` and
`now` stand for the `uuid()` / `Date.now()` of `makeMessage` when a reply
is built; `terr` is the transport outcome of the fire-and-forget reply
send (whose rejection is swallowed but whose queueing side effect
remains). -/
def GameConnection.processMessage (c : GameConnection) (msg : GameMessage)
    (freshGuid : String) (now : Nat) (terr : Option String) :
    GameConnection × List ConnEvent :=
  match msg with
  | .hello _ _ version =>
      let c1 := { c with handshake := true }
      let reply := ServerMessage.helloBack freshGuid now (version == VERSION)
      let c2 := (c1.sendMessage reply terr).2
      (c2, [ConnEvent.sendCalled reply])
  | .ping _ _ =>
      let reply := ServerMessage.pong freshGuid now
      let c1 := (c.sendMessage reply terr).2
      (c1, [ConnEvent.sendCalled reply])
  | .result r =>
      let evs1 := if mapHas c.outstandingRedeems r.guid then []
        else [ConnEvent.untrackedError r.guid]
      let evs2 := match mapGet c.resultHandlers r.guid with
        | none => [ConnEvent.noHandlerWarn r.guid]
        | some pid => [ConnEvent.handlerInvoked pid r]
      let c1 := { c with
        outstandingRedeems := mapDelete c.outstandingRedeems r.guid,
        resultHandlers := mapDelete c.resultHandlers r.guid }
      (c1, evs1 ++ evs2)
  | .ingameStateChanged _ _ b => (c, [ConnEvent.ingameSet b])
  | .other code guid _ => (c, [ConnEvent.unknownLogged guid code])

/-- `tryResendFromQueue`: `shift()` the oldest queued message, if any, and
hand it to `sendMessage` (outcome swallowed in the source; surfaced here
together with the attempted message). -/
def GameConnection.tryResendFromQueue (c : GameConnection)
    (terr : Option String) :
    Option (ServerMessage × Except String Unit) × GameConnection :=
  match c.unsentQueue with
  | [] => (none, c)
  | msg :: rest =>
      let out := GameConnection.sendMessage { c with unsentQueue := rest } msg terr
      (some (msg, out.1), out.2)

/-- Rejection string for a missing transaction id in `redeem`. -/
def missingTransactionIdError : String :=
  "Tried to redeem without transaction ID"

/-- Rejection string for a duplicate transaction id in `redeem`. -/
def duplicateRedeemError (guid : String) : String :=
  "Redeeming " ++ guid ++ " more than once"

/-- Rejection string of the `redeem` timeout branch. -/
def timeoutError : String :=
  "Timed out waiting for result. The redeem may still go through later, contact Alexejhero if it doesn\x27t."

/-- First-writer-wins settlement state of one `redeem` call's racing
promise. -/
inductive PromiseState
  | pending
  | resolvedWith (r : ResultMessage)
  | rejectedWith (e : String)
deriving DecidableEq

/-- `resolve`: settles only a pending promise. -/
def PromiseState.settleResolve : PromiseState → ResultMessage → PromiseState
  | .pending, r => .resolvedWith r
  | s, _ => s

/-- `reject`: settles only a pending promise. -/
def PromiseState.settleReject : PromiseState → String → PromiseState
  | .pending, e => .rejectedWith e
  | s, _ => s

/-- Invoke `resolve` of promise `pid` with a result message. -/
def promiseResolve (ps : List (Nat × PromiseState)) (pid : Nat)
    (r : ResultMessage) : List (Nat × PromiseState) :=
  match mapGet ps pid with
  | some st => mapSet ps pid (st.settleResolve r)
  | none => ps

/-- Invoke `reject` of promise `pid` with an error string. -/
def promiseReject (ps : List (Nat × PromiseState)) (pid : Nat) (e : String) :
    List (Nat × PromiseState) :=
  match mapGet ps pid with
  | some st => mapSet ps pid (st.settleReject e)
  | none => ps

/-- The `RedeemMessage` literal built inside `GameConnection.redeem`: the
`makeMessage` base with its fresh uuid overridden by the caller's
`transactionId`, `source` fixed to `Swarm`, catalog `id`/`title` copied,
`announce` set to `redeem.announce ?? true`, and the cart's argument
record and the user attached. -/
def mkRedeemMessage (redeem : Redeem) (cart : Cart) (user : TwitchUser)
    (transactionId : String) (now : Nat) : RedeemMessage :=
  { guid := transactionId
    timestamp := now
    source := CommandInvocationSource.Swarm
    command := redeem.id
    title := redeem.title
    announce := match redeem.announce with
      | some a => AnnounceVal.ofType a
      | none => AnnounceVal.ofBool true
    args := cart.args
    user := user }

/-- A `GameConnection` together with the settlement states of the promises
returned by its `redeem` calls. -/
structure GameSystem where
  conn : GameConnection
  promises : List (Nat × PromiseState)
deriving DecidableEq

/-- `GameConnection.redeem` (the spec's `submitRedeem`): race a timeout
against an executor that rejects on a missing or duplicate transaction id
and otherwise registers the outstanding redeem and its result handler and
fires off `sendMessage`, swallowing the send outcome. `pid` is the fresh
id of the returned promise, registered as pending before the executor
runs; `now` is `Date.now()`; `terr` is the transport outcome of the
initial send. -/
def GameSystem.submitRedeem (s : GameSystem) (redeem : Redeem) (cart : Cart)
    (user : TwitchUser) (transactionId : String) (now : Nat) (pid : Nat)
    (terr : Option String) : GameSystem :=
  let ps0 := mapSet s.promises pid PromiseState.pending
  if transactionId = "" then
    { s with promises := promiseReject ps0 pid missingTransactionIdError }
  else
    let msg := mkRedeemMessage redeem cart user transactionId now
    if mapHas s.conn.outstandingRedeems msg.guid then
      { s with promises := promiseReject ps0 pid (duplicateRedeemError msg.guid) }
    else
      let c1 := { s.conn with
        outstandingRedeems := mapSet s.conn.outstandingRedeems msg.guid msg,
        resultHandlers := mapSet s.conn.resultHandlers msg.guid pid }
      let c2 := (c1.sendMessage (ServerMessage.redeemMsg msg) terr).2
      { conn := c2, promises := ps0 }

/-- Firing of the `setTimeout` arm of the race for promise `pid`: rejects
with the timeout message if the promise is still pending, and touches
nothing else. -/
def GameSystem.fireTimeout (s : GameSystem) (pid : Nat) : GameSystem :=
  { s with promises := promiseReject s.promises pid timeoutError }

/-- Route the `handlerInvoked` effects of the event handlers to the
promise settlement states (the stored result handler is the `resolve`
callback of the corresponding `redeem` promise). -/
def applyEvents (ps : List (Nat × PromiseState)) :
    List ConnEvent → List (Nat × PromiseState)
  | [] => ps
  | ConnEvent.handlerInvoked pid r :: evs => applyEvents (promiseResolve ps pid r) evs
  | _ :: evs => applyEvents ps evs

/-- Deliver one inbound message at system level: run
`GameConnection.processMessage` and let any invoked result handler settle
its promise. -/
def GameSystem.deliverMessage (s : GameSystem) (msg : GameMessage)
    (freshGuid : String) (now : Nat) (terr : Option String) :
    GameSystem × List ConnEvent :=
  let out := s.conn.processMessage msg freshGuid now terr
  ({ conn := out.1, promises := applyEvents s.promises out.2 }, out.2)

deriving instance DecidableEq for Except

/-- Reading back the key just set gives the new value. -/
theorem mapGet_mapSet_self {κ α : Type} [DecidableEq κ]
    (m : List (κ × α)) (k : κ) (v : α) : mapGet (mapSet m k v) k = some v := by
  induction m with
  | nil => simp [mapGet, mapSet]
  | cons hd tl ih =>
      obtain ⟨k', v'⟩ := hd
      by_cases h : k' = k
      · simp [mapGet, mapSet, h]
      · simp [mapGet, mapSet, h, ih]

/-- Setting one key leaves every other key's lookup unchanged. -/
theorem mapGet_mapSet_ne {κ α : Type} [DecidableEq κ]
    (m : List (κ × α)) (k k' : κ) (v : α) (h : k' ≠ k) :
    mapGet (mapSet m k v) k' = mapGet m k' := by
  induction m with
  | nil => simp [mapGet, mapSet, Ne.symm h]
  | cons hd tl ih =>
      obtain ⟨k₀, v₀⟩ := hd
      by_cases h0 : k₀ = k
      · subst h0
        simp [mapGet, mapSet, Ne.symm h]
      · simp [mapGet, mapSet, h0, ih]

/-- Deleting a key removes its binding. -/
theorem mapGet_mapDelete_self {κ α : Type} [DecidableEq κ]
    (m : List (κ × α)) (k : κ) : mapGet (mapDelete m k) k = none := by
  induction m with
  | nil => simp [mapGet, mapDelete]
  | cons hd tl ih =>
      obtain ⟨k', v'⟩ := hd
      by_cases h : k' = k
      · simp [mapDelete, h, ih]
      · simp [mapGet, mapDelete, h, ih]

/-- Deleting one key leaves every other key's lookup unchanged. -/
theorem mapGet_mapDelete_ne {κ α : Type} [DecidableEq κ]
    (m : List (κ × α)) (k k' : κ) (h : k' ≠ k) :
    mapGet (mapDelete m k) k' = mapGet m k' := by
  induction m with
  | nil => simp [mapDelete]
  | cons hd tl ih =>
      obtain ⟨k₀, v₀⟩ := hd
      by_cases h0 : k₀ = k
      · subst h0
        simp [mapGet, mapDelete, Ne.symm h, ih]
      · simp [mapGet, mapDelete, h0, ih]

/-- `sendMessage` never changes anything but the unsent queue. -/
theorem sendMessage_preserves (c : GameConnection) (msg : ServerMessage)
    (terr : Option String) :
    ((c.sendMessage msg terr).2.handshake = c.handshake ∧
     (c.sendMessage msg terr).2.socket = c.socket ∧
     (c.sendMessage msg terr).2.outstandingRedeems = c.outstandingRedeems ∧
     (c.sendMessage msg terr).2.resultHandlers = c.resultHandlers ∧
     (c.sendMessage msg terr).2.resendIntervalHandle = c.resendIntervalHandle) := by
  unfold GameConnection.sendMessage GameConnection.msgSendError
  split
  · exact ⟨rfl, rfl, rfl, rfl, rfl⟩
  · split
    · exact ⟨rfl, rfl, rfl, rfl, rfl⟩
    · cases terr <;> exact ⟨rfl, rfl, rfl, rfl, rfl⟩

/-- `sendMessage` either leaves the queue alone (success) or appends the
message at the tail (every rejection path). -/
theorem sendMessage_queue (c : GameConnection) (msg : ServerMessage)
    (terr : Option String) :
    ((c.sendMessage msg terr).1 = Except.ok () ∧
       (c.sendMessage msg terr).2.unsentQueue = c.unsentQueue) ∨
    ((∃ e, (c.sendMessage msg terr).1 = Except.error e) ∧
       (c.sendMessage msg terr).2.unsentQueue = c.unsentQueue ++ [msg]) := by
  unfold GameConnection.sendMessage GameConnection.msgSendError
  split
  · exact Or.inr ⟨⟨_, rfl⟩, rfl⟩
  · split
    · exact Or.inr ⟨⟨_, rfl⟩, rfl⟩
    · cases terr
      · exact Or.inl ⟨rfl, rfl⟩
      · exact Or.inr ⟨⟨_, rfl⟩, rfl⟩

/-- An open websocket. -/
def sock0 : ServerWS := { readyState := ServerWS.OPEN }

/-- A connected, handshaked connection with empty queue and maps. -/
def conn0 : GameConnection :=
  { handshake := true, socket := some sock0, unsentQueue := [],
    outstandingRedeems := [], resultHandlers := [], resendIntervalHandle := true }

/-- A fully disconnected connection (initial state). -/
def connClosed : GameConnection :=
  { handshake := false, socket := none, unsentQueue := [],
    outstandingRedeems := [], resultHandlers := [], resendIntervalHandle := false }

/-- A connected but not yet handshaked connection. -/
def connNoHs : GameConnection := { conn0 with handshake := false }

/-- Sample user. -/
def user0 : TwitchUser :=
  { id := "u1", login := "chatter", displayName := "Chatter" }

/-- Sample cart. -/
def cart0 : Cart :=
  { version := 1, id := "cmd", sku := "s1", args := [("x", "1")],
    announce := true }

/-- Sample catalog redeem without an announce override. -/
def redeem0 : Redeem :=
  { id := "cmd", title := "Do Thing", description := "", args := [],
    announce := none, moderated := none, image := "", price := 1,
    sku := "s1", disabled := none, hidden := none }

/-- Sample system built on `conn0`. -/
def sys0 : GameSystem := { conn := conn0, promises := [] }

/-- Sample inbound result for transaction `tx-1`. -/
def rm0 : ResultMessage :=
  { guid := "tx-1", timestamp := 9, success := true, payload := "ok" }

/-- Sample outbound pong. -/
def pongMsg0 : ServerMessage := ServerMessage.pong "g" 0

/-- Shape of the system state after a `redeem` call that passes both the
missing-id and the duplicate guard: the promise is registered pending and
both correlation maps gain the transaction id, whatever the initial send's
transport outcome. -/
theorem submitRedeem_valid_shape
    (s : GameSystem) (redeem : Redeem) (cart : Cart) (user : TwitchUser)
    (tid : String) (now : Nat) (pid : Nat) (terr : Option String)
    (hid : tid ≠ "")
    (hout : mapHas s.conn.outstandingRedeems tid = false) :
    (s.submitRedeem redeem cart user tid now pid terr).promises
        = mapSet s.promises pid PromiseState.pending ∧
    (s.submitRedeem redeem cart user tid now pid terr).conn.outstandingRedeems
        = mapSet s.conn.outstandingRedeems tid
            (mkRedeemMessage redeem cart user tid now) ∧
    (s.submitRedeem redeem cart user tid now pid terr).conn.resultHandlers
        = mapSet s.conn.resultHandlers tid pid := by
  have hg : (mkRedeemMessage redeem cart user tid now).guid = tid := rfl
  simp only [GameSystem.submitRedeem, if_neg hid, hg, hout, Bool.false_eq_true,
    if_false]
  refine ⟨trivial, ?_, ?_⟩
  · exact (sendMessage_preserves _ _ _).2.2.1
  · exact (sendMessage_preserves _ _ _).2.2.2.1

/-- A key just set is reported present. -/
theorem mapHas_mapSet_self {κ α : Type} [DecidableEq κ]
    (m : List (κ × α)) (k : κ) (v : α) : mapHas (mapSet m k v) k = true := by
  simp [mapHas, mapGet_mapSet_self]

/-- C1: for every valid `(redeem, cart, user, id)` with a unique non-empty
id, `submitRedeem` (`GameConnection.redeem`) followed by processing an
inbound `Result` message with `guid = id` resolves exactly that call's
promise with that result message — the only handler invocation is for that
call, every other promise is untouched — and removes the id from both the
`outstandingRedeems` and the `resultHandlers` maps. -/
theorem submitRedeem_result_correlation
    (s : GameSystem) (redeem : Redeem) (cart : Cart) (user : TwitchUser)
    (tid : String) (now : Nat) (pid : Nat) (terr : Option String)
    (rm : ResultMessage) (g2 : String) (n2 : Nat) (terr2 : Option String)
    (hid : tid ≠ "")
    (hout : mapHas s.conn.outstandingRedeems tid = false)
    (hguid : rm.guid = tid) :
    ((s.submitRedeem redeem cart user tid now pid terr).deliverMessage
        (GameMessage.result rm) g2 n2 terr2).2
      = [ConnEvent.handlerInvoked pid rm] ∧
    mapGet ((s.submitRedeem redeem cart user tid now pid terr).deliverMessage
        (GameMessage.result rm) g2 n2 terr2).1.promises pid
      = some (PromiseState.resolvedWith rm) ∧
    (∀ pid', pid' ≠ pid →
      mapGet ((s.submitRedeem redeem cart user tid now pid terr).deliverMessage
          (GameMessage.result rm) g2 n2 terr2).1.promises pid'
        = mapGet s.promises pid') ∧
    mapGet ((s.submitRedeem redeem cart user tid now pid terr).deliverMessage
        (GameMessage.result rm) g2 n2 terr2).1.conn.outstandingRedeems tid
      = none ∧
    mapGet ((s.submitRedeem redeem cart user tid now pid terr).deliverMessage
        (GameMessage.result rm) g2 n2 terr2).1.conn.resultHandlers tid
      = none := by
  obtain ⟨hp, ho, hr⟩ :=
    submitRedeem_valid_shape s redeem cart user tid now pid terr hid hout
  simp only [GameSystem.deliverMessage, GameConnection.processMessage, hguid,
    ho, hr, hp, mapHas_mapSet_self, mapGet_mapSet_self, if_true,
    List.nil_append, applyEvents, promiseResolve, PromiseState.settleResolve,
    mapGet_mapDelete_self]
  refine ⟨trivial, trivial, ?_, trivial, trivial⟩
  intro pid' hne
  rw [mapGet_mapSet_ne _ _ _ _ hne, mapGet_mapSet_ne _ _ _ _ hne]

/-- Witness for C1: concrete run on `sys0` with transaction `tx-1`. -/
theorem submitRedeem_result_correlation_check :
    ("tx-1" : String) ≠ "" ∧
    mapHas sys0.conn.outstandingRedeems "tx-1" = false ∧
    rm0.guid = "tx-1" ∧
    ((sys0.submitRedeem redeem0 cart0 user0 "tx-1" 5 0 none).deliverMessage
        (GameMessage.result rm0) "g2" 9 none).2
      = [ConnEvent.handlerInvoked 0 rm0] ∧
    mapGet ((sys0.submitRedeem redeem0 cart0 user0 "tx-1" 5 0 none).deliverMessage
        (GameMessage.result rm0) "g2" 9 none).1.promises 0
      = some (PromiseState.resolvedWith rm0) ∧
    mapGet ((sys0.submitRedeem redeem0 cart0 user0 "tx-1" 5 0 none).deliverMessage
        (GameMessage.result rm0) "g2" 9 none).1.conn.outstandingRedeems "tx-1"
      = none ∧
    mapGet ((sys0.submitRedeem redeem0 cart0 user0 "tx-1" 5 0 none).deliverMessage
        (GameMessage.result rm0) "g2" 9 none).1.conn.resultHandlers "tx-1"
      = none := by
  have h := submitRedeem_result_correlation sys0 redeem0 cart0 user0 "tx-1" 5 0
    none rm0 "g2" 9 none (by decide) (by decide) (by decide)
  exact ⟨by decide, by decide, by decide, h.1, h.2.1, h.2.2.2.1, h.2.2.2.2⟩

/-- C2: when no matching `Result` is processed before the timeout fires
(configured default 10000), the redeem promise rejects with the
human-readable timeout message; firing the timeout leaves the connection
state — in particular both correlation map entries for the guid — fully
intact, and a `Result` arriving after the timeout is handled gracefully:
it removes both entries and leaves the already-settled promise rejected
with the timeout message. -/
theorem redeem_timeout_behaviour
    (s : GameSystem) (redeem : Redeem) (cart : Cart) (user : TwitchUser)
    (tid : String) (now : Nat) (pid : Nat) (terr : Option String)
    (rm : ResultMessage) (g2 : String) (n2 : Nat) (terr2 : Option String)
    (hid : tid ≠ "")
    (hout : mapHas s.conn.outstandingRedeems tid = false)
    (hguid : rm.guid = tid) :
    GameConnection.resultWaitTimeout = 10000 ∧
    mapGet ((s.submitRedeem redeem cart user tid now pid terr).fireTimeout
        pid).promises pid
      = some (PromiseState.rejectedWith timeoutError) ∧
    ((s.submitRedeem redeem cart user tid now pid terr).fireTimeout pid).conn
      = (s.submitRedeem redeem cart user tid now pid terr).conn ∧
    mapGet ((s.submitRedeem redeem cart user tid now pid terr).fireTimeout
        pid).conn.outstandingRedeems tid
      = some (mkRedeemMessage redeem cart user tid now) ∧
    mapGet ((s.submitRedeem redeem cart user tid now pid terr).fireTimeout
        pid).conn.resultHandlers tid
      = some pid ∧
    mapGet ((((s.submitRedeem redeem cart user tid now pid
        terr).fireTimeout pid).deliverMessage (GameMessage.result rm) g2 n2
        terr2).1).promises pid
      = some (PromiseState.rejectedWith timeoutError) ∧
    mapGet ((((s.submitRedeem redeem cart user tid now pid
        terr).fireTimeout pid).deliverMessage (GameMessage.result rm) g2 n2
        terr2).1).conn.outstandingRedeems tid
      = none ∧
    mapGet ((((s.submitRedeem redeem cart user tid now pid
        terr).fireTimeout pid).deliverMessage (GameMessage.result rm) g2 n2
        terr2).1).conn.resultHandlers tid
      = none := by
  obtain ⟨hp, ho, hr⟩ :=
    submitRedeem_valid_shape s redeem cart user tid now pid terr hid hout
  simp only [GameSystem.fireTimeout, GameSystem.deliverMessage,
    GameConnection.processMessage, hguid, hp, ho, hr, promiseReject,
    promiseResolve, PromiseState.settleReject, PromiseState.settleResolve,
    mapGet_mapSet_self, mapHas_mapSet_self, if_true, List.nil_append,
    applyEvents, mapGet_mapDelete_self]
  exact ⟨rfl, trivial, trivial, trivial, trivial, trivial, trivial, trivial⟩

/-- Witness for C2: concrete timeout-then-late-result run on `sys0`. -/
theorem redeem_timeout_behaviour_check :
    ("tx-1" : String) ≠ "" ∧
    mapHas sys0.conn.outstandingRedeems "tx-1" = false ∧
    rm0.guid = "tx-1" ∧
    GameConnection.resultWaitTimeout = 10000 ∧
    mapGet ((sys0.submitRedeem redeem0 cart0 user0 "tx-1" 5 0
        none).fireTimeout 0).promises 0
      = some (PromiseState.rejectedWith timeoutError) ∧
    ((sys0.submitRedeem redeem0 cart0 user0 "tx-1" 5 0 none).fireTimeout 0).conn
      = (sys0.submitRedeem redeem0 cart0 user0 "tx-1" 5 0 none).conn ∧
    mapGet ((sys0.submitRedeem redeem0 cart0 user0 "tx-1" 5 0
        none).fireTimeout 0).conn.resultHandlers "tx-1"
      = some 0 ∧
    mapGet ((((sys0.submitRedeem redeem0 cart0 user0 "tx-1" 5 0
        none).fireTimeout 0).deliverMessage (GameMessage.result rm0) "g2" 9
        none).1).promises 0
      = some (PromiseState.rejectedWith timeoutError) ∧
    mapGet ((((sys0.submitRedeem redeem0 cart0 user0 "tx-1" 5 0
        none).fireTimeout 0).deliverMessage (GameMessage.result rm0) "g2" 9
        none).1).conn.outstandingRedeems "tx-1"
      = none := by
  have h := redeem_timeout_behaviour sys0 redeem0 cart0 user0 "tx-1" 5 0 none
    rm0 "g2" 9 none (by decide) (by decide) (by decide)
  exact ⟨by decide, by decide, by decide, h.1, h.2.1, h.2.2.1, h.2.2.2.2.1,
    h.2.2.2.2.2.1, h.2.2.2.2.2.2.1⟩

/-- Sample outbound hello-back. -/
def helloBackMsg0 : ServerMessage := ServerMessage.helloBack "g" 0 true

/-- System with transaction `tx-1` already outstanding. -/
def sysDup : GameSystem := sys0.submitRedeem redeem0 cart0 user0 "tx-1" 5 0 none

/-- C3 counterexample: a send attempted with no connected socket rejects
with the `NotConnected` error and yet pushes the message onto the resend
queue, so the claim's «nothing is pushed to the resend queue» fails for
the `NotConnected` rejection. -/
theorem notConnected_rejection_queues :
    (connClosed.sendMessage pongMsg0 none).1 = Except.error notConnectedError ∧
    connClosed.unsentQueue = [] ∧
    (connClosed.sendMessage pongMsg0 none).2.unsentQueue = [pongMsg0] :=
  ⟨by decide, by decide, by decide⟩

/-- C3 (amended): `NotConnected` and `HandshakeIncomplete` reject the send
synchronously but do push the message onto the resend queue (both run the
shared `msgSendError` path); `MissingTransactionId` and `DuplicateRedeem`
reject the redeem synchronously with no side effect — the connection
state, including both correlation maps and the queue, is unchanged — so in
particular a duplicate `submitRedeem` leaves the first submission's
registration intact. -/
theorem syncRejections_amended
    (c : GameConnection) (m : ServerMessage) (terr : Option String)
    (s : GameSystem) (redeem : Redeem) (cart : Cart) (user : TwitchUser)
    (tid : String) (now : Nat) (pid : Nat) :
    (c.isConnected = false →
      c.sendMessage m terr
        = (Except.error notConnectedError, c.msgSendError m)) ∧
    (c.isConnected = true → c.handshake = false →
        m.messageType ≠ MessageType.Pong →
      c.sendMessage m terr
        = (Except.error handshakeIncompleteError, c.msgSendError m)) ∧
    ((s.submitRedeem redeem cart user "" now pid terr).conn = s.conn ∧
      mapGet (s.submitRedeem redeem cart user "" now pid terr).promises pid
        = some (PromiseState.rejectedWith missingTransactionIdError)) ∧
    (mapHas s.conn.outstandingRedeems tid = true → tid ≠ "" →
      (s.submitRedeem redeem cart user tid now pid terr).conn = s.conn ∧
      mapGet (s.submitRedeem redeem cart user tid now pid terr).promises pid
        = some (PromiseState.rejectedWith (duplicateRedeemError tid))) := by
  refine ⟨?_, ?_, ?_, ?_⟩
  · intro h
    simp [GameConnection.sendMessage, h]
  · intro h1 h2 h3
    simp [GameConnection.sendMessage, h1, h2, h3]
  · constructor
    · rfl
    · simp [GameSystem.submitRedeem, promiseReject, mapGet_mapSet_self,
        PromiseState.settleReject]
  · intro hdup hne
    have hg : (mkRedeemMessage redeem cart user tid now).guid = tid := rfl
    constructor
    · simp [GameSystem.submitRedeem, if_neg hne, hg, hdup]
    · simp [GameSystem.submitRedeem, if_neg hne, hg, hdup, promiseReject,
        mapGet_mapSet_self, PromiseState.settleReject]

/-- Witness for C3's amended claim: concrete rejections of all four kinds
on `connClosed` / `connNoHs` / `sysDup`. -/
theorem syncRejections_amended_check :
    (connClosed.sendMessage pongMsg0 none
      = (Except.error notConnectedError, connClosed.msgSendError pongMsg0)) ∧
    (connNoHs.sendMessage helloBackMsg0 none
      = (Except.error handshakeIncompleteError,
          connNoHs.msgSendError helloBackMsg0)) ∧
    (sysDup.submitRedeem redeem0 cart0 user0 "" 6 1 none).conn = sysDup.conn ∧
    mapGet (sysDup.submitRedeem redeem0 cart0 user0 "" 6 1 none).promises 1
      = some (PromiseState.rejectedWith missingTransactionIdError) ∧
    (sysDup.submitRedeem redeem0 cart0 user0 "tx-1" 6 1 none).conn
      = sysDup.conn ∧
    mapGet (sysDup.submitRedeem redeem0 cart0 user0 "tx-1" 6 1 none).promises 1
      = some (PromiseState.rejectedWith (duplicateRedeemError "tx-1")) := by
  have hA := syncRejections_amended connClosed pongMsg0 none sysDup redeem0
    cart0 user0 "tx-1" 6 1
  have hB := syncRejections_amended connNoHs helloBackMsg0 none sysDup redeem0
    cart0 user0 "tx-1" 6 1
  exact ⟨hA.1 (by decide), hB.2.1 (by decide) (by decide) (by decide),
    hA.2.2.1.1, hA.2.2.1.2, (hA.2.2.2 (by decide) (by decide)).1,
    (hA.2.2.2 (by decide) (by decide)).2⟩

/-- C4: processing an inbound `Hello` with version `X` flips the handshake
flag to complete and hands `sendMessage` a `HelloBack` reply whose
`allowed` field is the exact string comparison `X == VERSION` (with
`VERSION` the declared "0.1.0"), in both the matching and the mismatching
case alike. -/
theorem hello_handshake_helloBack
    (c : GameConnection) (guid fresh : String) (ts now : Nat)
    (version : String) (terr : Option String) :
    (c.processMessage (GameMessage.hello guid ts version) fresh now
        terr).1.handshake = true ∧
    (c.processMessage (GameMessage.hello guid ts version) fresh now terr).2
      = [ConnEvent.sendCalled
          (ServerMessage.helloBack fresh now (version == VERSION))] ∧
    VERSION = "0.1.0" := by
  refine ⟨?_, rfl, rfl⟩
  have h := (sendMessage_preserves { c with handshake := true }
    (ServerMessage.helloBack fresh now (version == VERSION)) terr).1
  simpa [GameConnection.processMessage] using h

/-- C5: while the handshake is incomplete, sending any message whose type
is not `Pong` fails with the `HandshakeIncomplete` rejection; a `Pong`
send with an open socket succeeds (transport permitting); and an inbound
`Ping` makes `processMessage` hand a `Pong` reply to `sendMessage` in
every handshake state. -/
theorem handshake_gate_and_ping
    (c : GameConnection) (m : ServerMessage) (terr : Option String)
    (guid fresh : String) (ts now : Nat) :
    (c.isConnected = true → c.handshake = false →
        m.messageType ≠ MessageType.Pong →
      (c.sendMessage m terr).1 = Except.error handshakeIncompleteError) ∧
    (c.isConnected = true →
      (c.sendMessage (ServerMessage.pong guid ts) none).1 = Except.ok ()) ∧
    (c.processMessage (GameMessage.ping guid ts) fresh now terr).2
      = [ConnEvent.sendCalled (ServerMessage.pong fresh now)] := by
  refine ⟨fun h1 h2 h3 => ?_, fun h1 => ?_, rfl⟩
  · simp [GameConnection.sendMessage, h1, h2, h3]
  · simp [GameConnection.sendMessage, h1, ServerMessage.messageType]

/-- Witness for C5 on the connected, unhandshaked `connNoHs`. -/
theorem handshake_gate_and_ping_check :
    connNoHs.isConnected = true ∧
    connNoHs.handshake = false ∧
    helloBackMsg0.messageType ≠ MessageType.Pong ∧
    (connNoHs.sendMessage helloBackMsg0 none).1
      = Except.error handshakeIncompleteError ∧
    (connNoHs.sendMessage (ServerMessage.pong "g" 0) none).1 = Except.ok () ∧
    (connNoHs.processMessage (GameMessage.ping "g" 0) "f" 2 none).2
      = [ConnEvent.sendCalled (ServerMessage.pong "f" 2)] := by
  have h := handshake_gate_and_ping connNoHs helloBackMsg0 none "g" "f" 0 2
  exact ⟨by decide, by decide, by decide,
    h.1 (by decide) (by decide) (by decide), h.2.1 (by decide), h.2.2⟩

/-- C6: when the transport write itself fails, `sendMessage` both rejects
with that transport error and pushes the message at the tail of the resend
queue; the push is a total list append, so it cannot fail. -/
theorem sendFailure_rejects_and_queues
    (c : GameConnection) (m : ServerMessage) (e : String)
    (hconn : c.isConnected = true)
    (hgate : c.handshake = true ∨ m.messageType = MessageType.Pong) :
    c.sendMessage m (some e)
      = (Except.error e, { c with unsentQueue := c.unsentQueue ++ [m] }) := by
  rcases hgate with h | h
  · simp [GameConnection.sendMessage, GameConnection.msgSendError, hconn, h]
  · simp [GameConnection.sendMessage, GameConnection.msgSendError, hconn, h]

/-- Witness for C6: a failing transport write on `conn0`. -/
theorem sendFailure_rejects_and_queues_check :
    conn0.isConnected = true ∧
    conn0.handshake = true ∧
    conn0.sendMessage pongMsg0 (some "boom")
      = (Except.error "boom",
          { conn0 with unsentQueue := conn0.unsentQueue ++ [pongMsg0] }) :=
  ⟨by decide, by decide,
    sendFailure_rejects_and_queues conn0 pongMsg0 "boom" (by decide)
      (Or.inl (by decide))⟩

/-- C7: a timer tick with a nonempty resend queue dequeues exactly the
oldest message and hands it to `sendMessage`; if that attempt succeeds the
queue is the remaining tail, and if it fails (for any reason) the message
is re-pushed at the tail of the queue, so it is never lost; a tick with an
empty queue changes nothing. -/
theorem resend_queue_fifo
    (c : GameConnection) (m : ServerMessage) (rest : List ServerMessage)
    (terr : Option String) (hq : c.unsentQueue = m :: rest) :
    (c.tryResendFromQueue terr).1
      = some (m, ({ c with unsentQueue := rest }.sendMessage m terr).1) ∧
    (({ c with unsentQueue := rest }.sendMessage m terr).1 = Except.ok () →
      (c.tryResendFromQueue terr).2.unsentQueue = rest) ∧
    (∀ e, ({ c with unsentQueue := rest }.sendMessage m terr).1
        = Except.error e →
      (c.tryResendFromQueue terr).2.unsentQueue = rest ++ [m]) ∧
    (∀ c' : GameConnection, c'.unsentQueue = [] →
      c'.tryResendFromQueue terr = (none, c')) := by
  obtain ⟨hsk, sock, q, o, rh, ti⟩ := c
  obtain rfl : q = m :: rest := hq
  refine ⟨rfl, ?_, ?_, ?_⟩
  · intro hok
    rcases sendMessage_queue ⟨hsk, sock, rest, o, rh, ti⟩ m terr with
      ⟨_, hqe⟩ | ⟨⟨e, he⟩, hqe⟩
    · exact hqe
    · rw [hok] at he; cases he
  · intro e he
    rcases sendMessage_queue ⟨hsk, sock, rest, o, rh, ti⟩ m terr with
      ⟨hok, hqe⟩ | ⟨_, hqe⟩
    · rw [hok] at he; cases he
    · exact hqe
  · intro c' hq'
    obtain ⟨hsk', sock', q', o', rh', ti'⟩ := c'
    obtain rfl : q' = [] := hq'
    rfl

/-- A connection with two messages already queued for resend. -/
def connQ : GameConnection :=
  { conn0 with unsentQueue := [pongMsg0, helloBackMsg0] }

/-- Witness for C7: one successful tick on `connQ`. -/
theorem resend_queue_fifo_check :
    connQ.unsentQueue = pongMsg0 :: [helloBackMsg0] ∧
    (connQ.tryResendFromQueue none).1
      = some (pongMsg0,
          ({ connQ with unsentQueue := [helloBackMsg0] }.sendMessage pongMsg0
            none).1) ∧
    (({ connQ with unsentQueue := [helloBackMsg0] }.sendMessage pongMsg0
        none).1 = Except.ok () →
      (connQ.tryResendFromQueue none).2.unsentQueue = [helloBackMsg0]) := by
  have h := resend_queue_fifo connQ pongMsg0 [helloBackMsg0] none (by decide)
  exact ⟨by decide, h.1, h.2.1⟩

/-- The close handler always leaves the timer stopped, never touches the
handshake flag, and notifies the sink. -/
theorem onSocketClose_stops_timer (c : GameConnection) :
    c.onSocketClose.1.resendIntervalHandle = false ∧
    c.onSocketClose.1.handshake = c.handshake ∧
    c.onSocketClose.2 = [ConnEvent.ingameSet false] := by
  by_cases h : c.resendIntervalHandle <;>
    simp [GameConnection.onSocketClose, h]

/-- C8 counterexample: closing the socket of the handshaked `conn0` leaves
the handshake flag `true` — the close handler never writes it — so the
claim's «the handshake state is reset to false» fails on socket closure. -/
theorem close_leaves_handshake_set :
    conn0.handshake = true ∧ conn0.onSocketClose.1.handshake = true :=
  ⟨by decide, by decide⟩

/-- C8 (amended): when the socket is closed (by either side), the resend
timer is stopped and the external state sink is notified that the game is
no longer active (`setIngame(false)`); the handshake flag is left exactly
as it was — it is reset only when a new socket is bound. -/
theorem socket_close_effects (c : GameConnection) :
    c.onSocketClose.1.resendIntervalHandle = false ∧
    c.onSocketClose.2 = [ConnEvent.ingameSet false] ∧
    c.onSocketClose.1.handshake = c.handshake :=
  ⟨(onSocketClose_stops_timer c).1, (onSocketClose_stops_timer c).2.2,
    (onSocketClose_stops_timer c).2.1⟩

/-- C9: `setSocket` first closes a previously bound live socket, emitting
its close effects (at most one live socket is owned at a time); binding an
actual socket resets the handshake flag to false, starts the resend
interval and stores the socket; binding `null` leaves the component with
no socket and with no running resend interval — given the invariant,
satisfied by every reachable state, that a running resend interval implies
a connected socket. -/
theorem setSocket_spec
    (c : GameConnection) (ws : Option ServerWS)
    (hinv : c.resendIntervalHandle = true → c.isConnected = true) :
    (c.isConnected = true →
      (c.setSocket ws).2
        = [ConnEvent.socketClosed, ConnEvent.ingameSet false]) ∧
    (∀ s, ws = some s →
      (c.setSocket ws).1.handshake = false ∧
      (c.setSocket ws).1.resendIntervalHandle = true ∧
      (c.setSocket ws).1.socket = some s) ∧
    (ws = none →
      (c.setSocket ws).1.socket = none ∧
      (c.setSocket ws).1.resendIntervalHandle = false) := by
  refine ⟨?_, ?_, ?_⟩
  · intro hc
    cases ws <;>
      simp [GameConnection.setSocket, GameConnection.onSocketClose, hc]
  · intro s hws
    subst hws
    by_cases hc : c.isConnected <;>
      simp [GameConnection.setSocket, GameConnection.onSocketClose, hc]
  · intro hws
    subst hws
    by_cases hc : c.isConnected
    · have h := (onSocketClose_stops_timer c).1
      simp only [GameConnection.setSocket, hc, if_true]
      simpa using h
    · simp only [GameConnection.setSocket, hc, if_false]
      cases hh : c.resendIntervalHandle
      · exact ⟨trivial, hh⟩
      · exact absurd (hinv hh) (by simpa using hc)

/-- Witness for C9: rebinding and unbinding on the connected `conn0`. -/
theorem setSocket_spec_check :
    (conn0.resendIntervalHandle = true → conn0.isConnected = true) ∧
    (conn0.setSocket (some sock0)).1.handshake = false ∧
    (conn0.setSocket (some sock0)).1.resendIntervalHandle = true ∧
    (conn0.setSocket (some sock0)).1.socket = some sock0 ∧
    (conn0.setSocket (some sock0)).2
      = [ConnEvent.socketClosed, ConnEvent.ingameSet false] ∧
    (conn0.setSocket none).1.socket = none ∧
    (conn0.setSocket none).1.resendIntervalHandle = false := by
  have hA := setSocket_spec conn0 (some sock0) (fun _ => by decide)
  have hB := setSocket_spec conn0 none (fun _ => by decide)
  exact ⟨fun _ => by decide, (hA.2.1 sock0 rfl).1, (hA.2.1 sock0 rfl).2.1,
    (hA.2.1 sock0 rfl).2.2, hA.1 (by decide), (hB.2.2 rfl).1, (hB.2.2 rfl).2⟩

/-- C10: in the `Redeem` message built by `submitRedeem`, a present
catalog `announce` field is copied verbatim as its numeric `AnnounceType`
value — `DefaultAnnounce` is numeral 0, a falsy non-boolean, and in
particular not the boolean `true` — while only an absent announce yields
the boolean `true`. -/
theorem redeem_announce_field
    (redeem : Redeem) (cart : Cart) (user : TwitchUser) (tid : String)
    (now : Nat) :
    (∀ a, redeem.announce = some a →
      (mkRedeemMessage redeem cart user tid now).announce
        = AnnounceVal.ofType a) ∧
    (redeem.announce = none →
      (mkRedeemMessage redeem cart user tid now).announce
        = AnnounceVal.ofBool true) ∧
    AnnounceType.DefaultAnnounce.toNat = 0 ∧
    AnnounceVal.ofType AnnounceType.DefaultAnnounce
      ≠ AnnounceVal.ofBool true := by
  refine ⟨?_, ?_, rfl, by decide⟩
  · intro a ha
    simp [mkRedeemMessage, ha]
  · intro ha
    simp [mkRedeemMessage, ha]

/-- The sample catalog redeem with the `DefaultAnnounce` override. -/
def redeemDA : Redeem :=
  { redeem0 with announce := some AnnounceType.DefaultAnnounce }

/-- Witness for C10: both the present (`DefaultAnnounce`) and the absent
announce case on concrete catalog items. -/
theorem redeem_announce_field_check :
    redeemDA.announce = some AnnounceType.DefaultAnnounce ∧
    (mkRedeemMessage redeemDA cart0 user0 "t" 0).announce
      = AnnounceVal.ofType AnnounceType.DefaultAnnounce ∧
    redeem0.announce = none ∧
    (mkRedeemMessage redeem0 cart0 user0 "t" 0).announce
      = AnnounceVal.ofBool true := by
  have hA := redeem_announce_field redeemDA cart0 user0 "t" 0
  have hB := redeem_announce_field redeem0 cart0 user0 "t" 0
  exact ⟨by decide, hA.1 _ (by decide), by decide, hB.2.1 (by decide)⟩
